import Mathlib

/-!
Verification of the topology-composition logic of the riscv_gem5
configuration scripts (`configs/example/riscv/devices.py`,
`configs/example/arm/starter_se.py`).

The Python classes are shallowly embedded as Lean structures and pure
functions.  Python `assert` statements and `sys.exit` calls become the
`.error` branch of `Except String`.  Python object identity (each call of a
cache class constructs a fresh object) is modelled by threading a serial
allocator (`Nat` counter) through the constructors: every constructed cache
instance carries a distinct serial number.
-/

namespace RiscvGem5

/-- A constructed cache instance.  The `serial` field models Python object
identity: each constructor call yields a fresh serial. -/
structure CacheInst where
  serial : Nat
deriving DecidableEq, Repr

/-- A cache class selector (`L1I`, `L1D`, `L2`, `HPI_ICache`, ...), i.e. one
of the class objects held in the `cpu_types` tuples.  Only presence/absence
and identity of the selector matter for topology. -/
structure CacheTy where
  name : String
deriving DecidableEq, Repr

/-- One CPU core as constructed by `CpuClusterRiscV.__init__`:
`self._cpu_type(cpu_id=system.numCpus() + idx, clk_domain=...)` followed by
`cpu.socket_id = system.numCpuClusters()`.  The `icache`/`dcache` fields
record the private L1 caches later attached by `addL1`
(`createThreads`/`createInterruptController` carry no topology data). -/
structure Cpu where
  cpu_id : Nat
  socket_id : Nat
  icache : Option CacheInst := none
  dcache : Option CacheInst := none
deriving DecidableEq, Repr

/-- The `L2XBar` crossbar built by `addL2` (`self.toL2Bus`):
`cpu_side_conns` records the cpu ids whose cached ports were connected to
`toL2Bus.cpu_side_ports`, and `mem_side_conn` the serial of the L2 whose
`cpu_side` port was connected to `toL2Bus.mem_side_ports`. -/
structure Crossbar where
  serial : Nat
  cpu_side_conns : List Nat
  mem_side_conn : Option Nat
deriving DecidableEq, Repr

/-- State of `CpuClusterRiscV` (a `SubSystem`): the stored type selectors
`_cpu_type`/`_l1i_type`/`_l1d_type`/`_l2_type`, the constructed cores, and
the attributes `toL2Bus`/`l2` that exist only after `addL2` ran with an L2
type configured (`none` models the attribute being absent). -/
structure Cluster where
  cpu_type : String
  l1i_type : Option CacheTy
  l1d_type : Option CacheTy
  l2_type : Option CacheTy
  cpus : List Cpu
  toL2Bus : Option Crossbar := none
  l2 : Option CacheInst := none
deriving DecidableEq, Repr

/-- Book-keeping fields of `SimpleSeSystem.__init__`: `self._clusters = []`
and `self._num_cpus = 0`.  The code reads `_clusters` only through
`len(self._clusters)` (`numCpuClusters`), so the list is modelled by its
length. -/
structure SystemState where
  clusters : Nat := 0
  num_cpus : Nat := 0
deriving DecidableEq, Repr

/-- `SimpleSeSystem.numCpus`. -/
def SystemState.numCpus (sys : SystemState) : Nat := sys.num_cpus

/-- `SimpleSeSystem.numCpuClusters`. -/
def SystemState.numCpuClusters (sys : SystemState) : Nat := sys.clusters

/-- `SimpleSeSystem.addCpuCluster(cpu_cluster, num_cpus)`:
`assert num_cpus > 0`, append the cluster to `_clusters`, add `num_cpus` to
`_num_cpus`.  The `assert cpu_cluster not in self._clusters` always holds
for a freshly constructed cluster object and is not modelled. -/
def addCpuCluster (sys : SystemState) (num_cpus : Int) : Except String SystemState :=
  if num_cpus ≤ 0 then .error "assert num_cpus > 0"
  else .ok { clusters := sys.clusters + 1, num_cpus := sys.num_cpus + num_cpus.toNat }

/-- `CpuClusterRiscV.__init__(system, num_cpus, cpu_clock, cpu_voltage,
cpu_type, l1i_type, l1d_type, l2_type)`: store the type selectors,
`assert num_cpus > 0`, construct `num_cpus` cores with
`cpu_id = system.numCpus() + idx` and `socket_id = system.numCpuClusters()`,
then register via `system.addCpuCluster(self, num_cpus)`.  Clock and voltage
domains carry no topology data and are omitted. -/
def clusterInit (system : SystemState) (num_cpus : Int) (cpu_type : String)
    (l1i_type l1d_type l2_type : Option CacheTy) :
    Except String (Cluster × SystemState) :=
  if num_cpus ≤ 0 then .error "assert num_cpus > 0"
  else
    let cpus : List Cpu := (List.range num_cpus.toNat).map fun idx =>
      { cpu_id := system.numCpus + idx, socket_id := system.numCpuClusters }
    let cluster : Cluster :=
      { cpu_type := cpu_type, l1i_type := l1i_type, l1d_type := l1d_type,
        l2_type := l2_type, cpus := cpus }
    match addCpuCluster system num_cpus with
    | .error e => .error e
    | .ok sys' => .ok (cluster, sys')

/-- Modelled from the spec: `BaseCPU.addPrivateSplitL1Caches` lives in the
simulator core, not under `configs/`.  Spec 4.2 step 5: construct private
per-core instances "and attach them to that core's cached port; caches are
owned exclusively by the core they are attached to".  Attachment is modelled
by setting the core's `icache`/`dcache` fields to the given instances. -/
def addPrivateSplitL1Caches (cpu : Cpu) (l1i l1d : Option CacheInst) : Cpu :=
  { cpu with icache := l1i, dcache := l1d }

/-- One `None if self._lXX_type is None else self._lXX_type()` step of
`addL1`: with a configured type, construct a fresh instance (consuming one
serial from the allocator); otherwise produce `None`. -/
def buildOpt (t : Option CacheTy) (ctr : Nat) : Option CacheInst × Nat :=
  match t with
  | none => (none, ctr)
  | some _ => (some { serial := ctr }, ctr + 1)

/-- The `for cpu in self.cpus` loop of `CpuClusterRiscV.addL1`: per core,
construct `l1i` and `l1d` (fresh instances when the corresponding type is
configured) and call `cpu.addPrivateSplitL1Caches(l1i, l1d)`. -/
def addL1Caches : List Cpu → Option CacheTy → Option CacheTy → Nat → List Cpu × Nat
  | [], _, _, ctr => ([], ctr)
  | cpu :: rest, ti, td, ctr =>
    let pi := buildOpt ti ctr
    let pd := buildOpt td pi.2
    let pr := addL1Caches rest ti td pd.2
    (addPrivateSplitL1Caches cpu pi.1 pd.1 :: pr.1, pr.2)

/-- `CpuClusterRiscV.addL1`. -/
def addL1 (c : Cluster) (ctr : Nat) : Cluster × Nat :=
  let p := addL1Caches c.cpus c.l1i_type c.l1d_type ctr
  ({ c with cpus := p.1 }, p.2)

/-- `CpuClusterRiscV.addL2(clk_domain)`: if `self._l2_type is None`, return
(no-op); otherwise build `self.toL2Bus = L2XBar(...)` and
`self.l2 = self._l2_type()`, connect every core's cached ports to
`toL2Bus.cpu_side_ports` (`cpu.connectCachedPorts`), and connect
`toL2Bus.mem_side_ports` to `self.l2.cpu_side`. -/
def addL2 (c : Cluster) (ctr : Nat) : Cluster × Nat :=
  match c.l2_type with
  | none => (c, ctr)
  | some _ =>
    let xbarSerial := ctr
    let l2i : CacheInst := { serial := ctr + 1 }
    let xbar : Crossbar :=
      { serial := xbarSerial,
        cpu_side_conns := c.cpus.map Cpu.cpu_id,
        mem_side_conn := some l2i.serial }
    ({ c with toL2Bus := some xbar, l2 := some l2i }, ctr + 2)

/-- One upstream connection made by `connectMemSide(bus)` onto
`bus.cpu_side_ports`: either the shared L2's `mem_side` port, or a core's
cached port. -/
inductive BusConn where
  | l2MemSide (l2Serial : Nat)
  | cpuCachedPort (cpuId : Nat)
deriving DecidableEq, Repr

/-- Modelled from the spec: `BaseCPU.connectCachedPorts` lives in the
simulator core, not under `configs/`.  Spec 4.2 step 7: "otherwise connect
every core directly to the system bus", one upstream connection per core. -/
def connectCachedPorts (cpu : Cpu) : BusConn := .cpuCachedPort cpu.cpu_id

/-- `CpuClusterRiscV.connectMemSide(bus)`: `try: self.l2.mem_side =
bus.cpu_side_ports` succeeds exactly when the `l2` attribute exists (set by
`addL2` with an L2 type configured); on `AttributeError` every core is
connected to the bus directly.  The result is the list of upstream
connections made onto `bus.cpu_side_ports`. -/
def connectMemSide (c : Cluster) : List BusConn :=
  match c.l2 with
  | some l2i => [.l2MemSide l2i.serial]
  | none => c.cpus.map connectCachedPorts

/-- A `cpu_types` entry of `starter_se.py`: `(cpu_class, l1_icache_class,
l1_dcache_class, l2_cache_class)`. -/
structure CpuConfig where
  cpu_type : String
  l1i_type : Option CacheTy
  l1d_type : Option CacheTy
  l2_type : Option CacheTy
deriving DecidableEq, Repr

/-- `devices.L1I`. -/
def devicesL1I : CacheTy := { name := "L1I" }

/-- `devices.L1D`. -/
def devicesL1D : CacheTy := { name := "L1D" }

/-- `devices.L2`. -/
def devicesL2 : CacheTy := { name := "L2" }

/-- The `cpu_types` table of `starter_se.py`. -/
def cpu_types : List (String × CpuConfig) :=
  [ ("atomic", { cpu_type := "AtomicSimpleCPU",
                 l1i_type := none, l1d_type := none, l2_type := none }),
    ("minor", { cpu_type := "MinorCPU",
                l1i_type := some devicesL1I, l1d_type := some devicesL1D,
                l2_type := some devicesL2 }),
    ("hpi", { cpu_type := "HPI",
              l1i_type := some { name := "HPI_ICache" },
              l1d_type := some { name := "HPI_DCache" },
              l2_type := some { name := "HPI_L2" } }),
    ("ac", { cpu_type := "AtomicSimpleCPU",
             l1i_type := some devicesL1I, l1d_type := some devicesL1D,
             l2_type := some devicesL2 }),
    ("o3", { cpu_type := "O3CPU",
             l1i_type := some devicesL1I, l1d_type := some devicesL1D,
             l2_type := some devicesL2 }),
    ("timing", { cpu_type := "O3_ARM_v7a_3",
                 l1i_type := some devicesL1I, l1d_type := some devicesL1D,
                 l2_type := some devicesL2 }),
    ("ex5", { cpu_type := "ex5_big",
              l1i_type := some { name := "ex5_big.L1I" },
              l1d_type := some { name := "ex5_big.L1D" },
              l2_type := some { name := "ex5_big.L2" } }),
    ("ex5l", { cpu_type := "ex5_LITTLE",
               l1i_type := some { name := "ex5_LITTLE.L1I" },
               l1d_type := some { name := "ex5_LITTLE.L1D" },
               l2_type := some { name := "ex5_LITTLE.L2" } }),
    ("pk", { cpu_type := "O3_ARM_PostK_3",
             l1i_type := some { name := "O3_ARM_PostK_ICache" },
             l1d_type := some { name := "O3_ARM_PostK_DCache" },
             l2_type := some { name := "O3_ARM_PostK_L2" } }) ]

/-- The `args.l2_size` resolution in `starter_se.create`: a non-empty
override equal to `"0"` replaces the `cpu_types` entry's L2 class with
`None`; any other non-empty value only mutates `devices.L2.size` (cache
geometry, not topology), leaving the entry's shape unchanged. -/
def applyL2SizeOverride (cfg : CpuConfig) (l2_size : String) : CpuConfig :=
  if l2_size ≠ "" then
    if l2_size = "0" then
      { cpu_type := cfg.cpu_type, l1i_type := cfg.l1i_type,
        l1d_type := cfg.l1d_type, l2_type := none }
    else cfg
  else cfg

/-- The cluster-assembly part of `SimpleSeSystem.__init__` (lines 122-138):
construct the cluster, then, when the memory mode requires caches (the
`memoryMode() == "timing"` branch, or the `args.cpu == "ac"` branch, both
wiring caches identically; abstracted as `useCaches`), call `addL1` and
`addL2`; finally `connectMemSide(self.membus)` unconditionally. -/
def assembleCluster (sys : SystemState) (num_cores : Int) (cfg : CpuConfig)
    (useCaches : Bool) (ctr : Nat) :
    Except String (Cluster × SystemState × Nat × List BusConn) :=
  match clusterInit sys num_cores cfg.cpu_type cfg.l1i_type cfg.l1d_type cfg.l2_type with
  | .error e => .error e
  | .ok (c0, sys') =>
    let p1 := if useCaches then addL1 c0 ctr else (c0, ctr)
    let p2 := if useCaches then addL2 p1.1 p1.2 else p1
    .ok (p2.1, sys', p2.2, connectMemSide p2.1)

/-- The workload-binding part of `starter_se.create` (lines 200-231): build
the system (one cluster of `args.num_cores` cores on a fresh
`SimpleSeSystem`), then reject with `sys.exit(1)` when
`len(processes) != args.num_cores` — this happens before `m5.instantiate` —
and otherwise bind one workload per CPU via
`zip(system.cpu_cluster.cpus, processes)`. -/
def createSystem (num_cores : Int) (cfg : CpuConfig) (useCaches : Bool)
    (processes : List Nat) (ctr : Nat) :
    Except String (Cluster × SystemState × List (Cpu × Nat)) :=
  match assembleCluster { } num_cores cfg useCaches ctr with
  | .error e => .error e
  | .ok (cl, sys', _, _) =>
    if (processes.length : Int) ≠ num_cores then
      .error "Error: Cannot map commands onto CPUs"
    else
      .ok (cl, sys', cl.cpus.zip processes)

/-- The serial numbers of all cache instances attached to one core. -/
def cpuCacheSerials (cpu : Cpu) : List Nat :=
  (cpu.icache.toList ++ cpu.dcache.toList).map CacheInst.serial

/-- The serial numbers of all cache instances attached to a list of cores;
an instance shared between two cores would make its serial appear twice. -/
def cacheSerials (cpus : List Cpu) : List Nat :=
  cpus.flatMap cpuCacheSerials

/-- The external FastModel CPU classes listed in `FastmodelCluster.__init__`:
`CpuClasses = [FastModelCortexA76x1, ..., FastModelCortexA76x4]`. -/
inductive FastModelCpuClass where
  | cortexA76x1
  | cortexA76x2
  | cortexA76x3
  | cortexA76x4
deriving DecidableEq, Repr

/-- Number of cores provided by each external model class variant. -/
def FastModelCpuClass.numCores : FastModelCpuClass → Nat
  | .cortexA76x1 => 1
  | .cortexA76x2 => 2
  | .cortexA76x3 => 3
  | .cortexA76x4 => 4

/-- The `CpuClasses` table of `FastmodelCluster.__init__`. -/
def CpuClasses : List FastModelCpuClass :=
  [.cortexA76x1, .cortexA76x2, .cortexA76x3, .cortexA76x4]

/-- Python list indexing `l[i]`: a negative index counts from the end of the
list (`l[i]` is `l[len(l) + i]`); an index that is still out of range raises
`IndexError`, modelled as `none`. -/
def pyGet {α : Type} (l : List α) (i : Int) : Option α :=
  let j : Int := if i < 0 then i + l.length else i
  if j < 0 then none else l[j.toNat]?

/-- `redist_frame_size = 0x40000 if gic.sc_gic.has_gicv4_1 else 0x20000`. -/
def redist_frame_size (has_gicv4_1 : Bool) : Nat :=
  if has_gicv4_1 then 0x40000 else 0x20000

/-- The `reg_base_per_redistributor` table of `FastmodelCluster.__init__`
(lines 209-212): one entry per core index `i` in `range(num_cpus)`, mapping
affinity `i` to the address `redist_base + redist_frame_size * i`. -/
def redistTable (redist_base : Nat) (frame_size : Nat) (num_cpus : Nat) :
    List (Nat × Nat) :=
  (List.range num_cpus).map fun i => (i, redist_base + frame_size * i)

/-- `FastmodelCluster.__init__` lines 233-236: `assert num_cpus <= 4`, then
select the external model class by `CpuClasses[num_cpus - 1]` (Python
indexing, so index `-1` wraps to the last entry). -/
def fastmodelSelectCpu (num_cpus : Int) : Except String FastModelCpuClass :=
  if 4 < num_cpus then .error "assert num_cpus <= 4"
  else
    match pyGet CpuClasses (num_cpus - 1) with
    | none => .error "IndexError: list index out of range"
    | some cls => .ok cls

/-- Result of a completed `FastmodelCluster.__init__`: the GIC per-core
affinities (`cpu_affinities`, indices `0..num_cpus-1`), the redistributor
address table, and the selected external model class (whose cores were
configured: semihosting disabled, `RVBARADDR` fixed, redistributor bound).
The four GIC protocol bridges and the two memory-side bridges carry no
further topology data relevant here. -/
structure FastmodelResult where
  cpu_affinities : List Nat
  reg_base_per_redistributor : List (Nat × Nat)
  cpuClass : FastModelCpuClass
deriving DecidableEq, Repr

/-- `FastmodelCluster.__init__(system, num_cpus, ...)`: configure the GIC
affinities and redistributor table (lines 202-212, before any check), build
the four GIC bridges, then `assert num_cpus <= 4` and select
`CpuClasses[num_cpus - 1]`, construct and configure the external model's
cores, and finally register via `system.addCpuCluster(self, num_cpus)`
(`SimpleSeSystem.addCpuCluster`, which asserts `num_cpus > 0`). -/
def fastmodelInit (system : SystemState) (num_cpus : Int)
    (redist_base : Nat) (has_gicv4_1 : Bool) :
    Except String (FastmodelResult × SystemState) :=
  let affinities := List.range num_cpus.toNat
  let table := redistTable redist_base (redist_frame_size has_gicv4_1) num_cpus.toNat
  match fastmodelSelectCpu num_cpus with
  | .error e => .error e
  | .ok cls =>
    let res : FastmodelResult :=
      { cpu_affinities := affinities, reg_base_per_redistributor := table,
        cpuClass := cls }
    match addCpuCluster system num_cpus with
    | .error e => .error e
    | .ok sys' => .ok (res, sys')

/-- The cluster value a successful `clusterInit` constructs (named here so
that equations about the assembly pipeline stay readable). -/
def initialCluster (sys : SystemState) (n : Nat) (ct : String)
    (ti td tl2 : Option CacheTy) : Cluster :=
  { cpu_type := ct, l1i_type := ti, l1d_type := td, l2_type := tl2,
    cpus := (List.range n).map fun idx =>
      { cpu_id := sys.num_cpus + idx, socket_id := sys.clusters } }

/-- A sample pair of cores used by concrete witnesses. -/
def sampleCpus : List Cpu :=
  [{ cpu_id := 0, socket_id := 0 }, { cpu_id := 1, socket_id := 0 }]

/-- A sample 2-core cluster with L1I/L1D/L2 types configured. -/
def sampleClusterL2 : Cluster :=
  { cpu_type := "MinorCPU", l1i_type := some devicesL1I,
    l1d_type := some devicesL1D, l2_type := some devicesL2, cpus := sampleCpus }

/-- The same sample cluster with no L2 type configured. -/
def sampleClusterNoL2 : Cluster :=
  { cpu_type := "MinorCPU", l1i_type := some devicesL1I,
    l1d_type := some devicesL1D, l2_type := none, cpus := sampleCpus }

/-- The "timing" entry of `cpu_types`, used by concrete witnesses. -/
def cfgTiming : CpuConfig :=
  { cpu_type := "O3_ARM_v7a_3", l1i_type := some devicesL1I,
    l1d_type := some devicesL1D, l2_type := some devicesL2 }

/-- The "atomic" entry of `cpu_types`, used by concrete witnesses. -/
def cfgAtomic : CpuConfig :=
  { cpu_type := "AtomicSimpleCPU", l1i_type := none, l1d_type := none,
    l2_type := none }

/-! ## Helper lemmas -/

theorem clusterInit_pos (sys : SystemState) (n : Int) (hn : 0 < n)
    (ct : String) (ti td tl2 : Option CacheTy) :
    clusterInit sys n ct ti td tl2 = .ok
      (initialCluster sys n.toNat ct ti td tl2,
       { clusters := sys.clusters + 1, num_cpus := sys.num_cpus + n.toNat }) := by
  have h1 : ¬ n ≤ 0 := by omega
  simp [clusterInit, addCpuCluster, h1, SystemState.numCpus, SystemState.numCpuClusters,
    initialCluster]

theorem initialCluster_cpus_length (sys : SystemState) (n : Nat) (ct : String)
    (ti td tl2 : Option CacheTy) :
    (initialCluster sys n ct ti td tl2).cpus.length = n := by
  simp [initialCluster]

theorem initialCluster_cpus_map (sys : SystemState) (n : Nat) (ct : String)
    (ti td tl2 : Option CacheTy) :
    (initialCluster sys n ct ti td tl2).cpus.map Cpu.cpu_id
      = (List.range n).map (fun i => sys.num_cpus + i) := by
  simp only [initialCluster, List.map_map]
  rfl

theorem buildOpt_snd (t : Option CacheTy) (k : Nat) :
    (buildOpt t k).2 = k + (if t.isSome then 1 else 0) := by
  cases t <;> rfl

theorem addL1Caches_length (cs : List Cpu) (ti td : Option CacheTy) (k : Nat) :
    (addL1Caches cs ti td k).1.length = cs.length := by
  induction cs generalizing k with
  | nil => rfl
  | cons cpu rest ih => simp [addL1Caches, ih]

theorem addL1Caches_map_cpu_id (cs : List Cpu) (ti td : Option CacheTy) (k : Nat) :
    (addL1Caches cs ti td k).1.map Cpu.cpu_id = cs.map Cpu.cpu_id := by
  induction cs generalizing k with
  | nil => rfl
  | cons cpu rest ih => simp [addL1Caches, addPrivateSplitL1Caches, ih]

theorem addL1Caches_mem (cs : List Cpu) (ti td : Option CacheTy) (k : Nat) :
    ∀ cpu ∈ (addL1Caches cs ti td k).1,
      cpu.icache.isSome = ti.isSome ∧ cpu.dcache.isSome = td.isSome := by
  induction cs generalizing k with
  | nil => intro cpu h; simp [addL1Caches] at h
  | cons c rest ih =>
    intro cpu h
    simp only [addL1Caches, List.mem_cons] at h
    rcases h with h | h
    · subst h
      constructor
      · cases ti <;> simp [addPrivateSplitL1Caches, buildOpt]
      · cases td <;> simp [addPrivateSplitL1Caches, buildOpt]
    · exact ih _ cpu h

theorem addL1Caches_ctr_le (cs : List Cpu) (ti td : Option CacheTy) (k : Nat) :
    k ≤ (addL1Caches cs ti td k).2 := by
  induction cs generalizing k with
  | nil => simp [addL1Caches]
  | cons c rest ih =>
    have h1 := buildOpt_snd ti k
    have h2 := buildOpt_snd td (buildOpt ti k).2
    have h3 := ih (buildOpt td (buildOpt ti k).2).2
    simp only [addL1Caches]
    omega

theorem hd_serials_eq (c : Cpu) (ti td : Option CacheTy) (k : Nat) :
    cpuCacheSerials
        (addPrivateSplitL1Caches c (buildOpt ti k).1 (buildOpt td (buildOpt ti k).2).1)
      = (if ti.isSome then [k] else [])
        ++ (if td.isSome then [(buildOpt ti k).2] else []) := by
  cases ti <;> cases td <;> rfl

theorem hd_serials_bounds (ti td : Option CacheTy) (k : Nat) :
    ∀ s ∈ (if ti.isSome then [k] else [])
        ++ (if td.isSome then [(buildOpt ti k).2] else []),
      k ≤ s ∧ s < (buildOpt td (buildOpt ti k).2).2 := by
  cases ti <;> cases td <;> intro s hs <;> simp [buildOpt] at hs ⊢ <;> omega

theorem addL1Caches_serial_bounds (cs : List Cpu) (ti td : Option CacheTy) (k : Nat) :
    ∀ s ∈ cacheSerials (addL1Caches cs ti td k).1,
      k ≤ s ∧ s < (addL1Caches cs ti td k).2 := by
  induction cs generalizing k with
  | nil => intro s h; simp [addL1Caches, cacheSerials] at h
  | cons c rest ih =>
    intro s h
    have h1 := buildOpt_snd ti k
    have h2 := buildOpt_snd td (buildOpt ti k).2
    have hle := addL1Caches_ctr_le rest ti td (buildOpt td (buildOpt ti k).2).2
    have hcons : cacheSerials ((addL1Caches (c :: rest) ti td k).1) =
        cpuCacheSerials (addPrivateSplitL1Caches c (buildOpt ti k).1
            (buildOpt td (buildOpt ti k).2).1)
          ++ cacheSerials (addL1Caches rest ti td (buildOpt td (buildOpt ti k).2).2).1 := rfl
    have hsnd : (addL1Caches (c :: rest) ti td k).2
        = (addL1Caches rest ti td (buildOpt td (buildOpt ti k).2).2).2 := rfl
    rw [hcons, hd_serials_eq] at h
    rw [hsnd]
    rcases List.mem_append.1 h with hm | hm
    · have hb := hd_serials_bounds ti td k s hm
      exact ⟨hb.1, lt_of_lt_of_le hb.2 hle⟩
    · have hb := ih _ s hm
      constructor
      · have : k ≤ (buildOpt td (buildOpt ti k).2).2 := by omega
        omega
      · exact hb.2

theorem addL1Caches_serials_nodup (cs : List Cpu) (ti td : Option CacheTy) (k : Nat) :
    (cacheSerials (addL1Caches cs ti td k).1).Nodup := by
  induction cs generalizing k with
  | nil => simp [addL1Caches, cacheSerials]
  | cons c rest ih =>
    have hbounds := addL1Caches_serial_bounds rest ti td (buildOpt td (buildOpt ti k).2).2
    have hcons : cacheSerials ((addL1Caches (c :: rest) ti td k).1) =
        cpuCacheSerials (addPrivateSplitL1Caches c (buildOpt ti k).1
            (buildOpt td (buildOpt ti k).2).1)
          ++ cacheSerials (addL1Caches rest ti td (buildOpt td (buildOpt ti k).2).2).1 := rfl
    rw [hcons, hd_serials_eq, List.nodup_append]
    refine ⟨?_, ih _, ?_⟩
    · cases ti <;> cases td <;> simp [buildOpt]
    · intro s hs hs'
      have hb := hd_serials_bounds ti td k s hs
      have hb' := hbounds s hs'
      omega

theorem addL1_l2_type (c : Cluster) (k : Nat) : (addL1 c k).1.l2_type = c.l2_type := rfl

theorem addL1_l2 (c : Cluster) (k : Nat) : (addL1 c k).1.l2 = c.l2 := rfl

theorem addL1_toL2Bus (c : Cluster) (k : Nat) : (addL1 c k).1.toL2Bus = c.toL2Bus := rfl

theorem addL1_cpus_map (c : Cluster) (k : Nat) :
    (addL1 c k).1.cpus.map Cpu.cpu_id = c.cpus.map Cpu.cpu_id :=
  addL1Caches_map_cpu_id c.cpus c.l1i_type c.l1d_type k

theorem addL1_cpus_length (c : Cluster) (k : Nat) :
    (addL1 c k).1.cpus.length = c.cpus.length :=
  addL1Caches_length c.cpus c.l1i_type c.l1d_type k

theorem addL2_none_eq (c : Cluster) (k : Nat) (h : c.l2_type = none) :
    addL2 c k = (c, k) := by
  simp [addL2, h]

theorem addL2_some_eq (c : Cluster) (k : Nat) (t : CacheTy) (h : c.l2_type = some t) :
    addL2 c k =
      ({ c with
          toL2Bus := some { serial := k, cpu_side_conns := c.cpus.map Cpu.cpu_id,
                            mem_side_conn := some (k + 1) },
          l2 := some { serial := k + 1 } }, k + 2) := by
  simp [addL2, h]

theorem assembleCluster_true_eq (sys : SystemState) (n : Int) (hn : 0 < n)
    (cfg : CpuConfig) (ctr : Nat) :
    assembleCluster sys n cfg true ctr =
      .ok ((addL2 (addL1 (initialCluster sys n.toNat cfg.cpu_type cfg.l1i_type
                    cfg.l1d_type cfg.l2_type) ctr).1
              (addL1 (initialCluster sys n.toNat cfg.cpu_type cfg.l1i_type
                    cfg.l1d_type cfg.l2_type) ctr).2).1,
           { clusters := sys.clusters + 1, num_cpus := sys.num_cpus + n.toNat },
           (addL2 (addL1 (initialCluster sys n.toNat cfg.cpu_type cfg.l1i_type
                    cfg.l1d_type cfg.l2_type) ctr).1
              (addL1 (initialCluster sys n.toNat cfg.cpu_type cfg.l1i_type
                    cfg.l1d_type cfg.l2_type) ctr).2).2,
           connectMemSide (addL2 (addL1 (initialCluster sys n.toNat cfg.cpu_type
                    cfg.l1i_type cfg.l1d_type cfg.l2_type) ctr).1
              (addL1 (initialCluster sys n.toNat cfg.cpu_type cfg.l1i_type
                    cfg.l1d_type cfg.l2_type) ctr).2).1) := by
  simp [assembleCluster, clusterInit_pos sys n hn cfg.cpu_type cfg.l1i_type
    cfg.l1d_type cfg.l2_type]

theorem clusterInit_nonpos (sys : SystemState) (n : Int) (h : n ≤ 0)
    (ct : String) (ti td tl2 : Option CacheTy) :
    clusterInit sys n ct ti td tl2 = .error "assert num_cpus > 0" := by
  simp [clusterInit, if_pos h]

theorem addL2_cpus (c : Cluster) (k : Nat) : (addL2 c k).1.cpus = c.cpus := by
  cases h : c.l2_type with
  | none => rw [addL2_none_eq c k h]
  | some t => rw [addL2_some_eq c k t h]

theorem assembleCluster_nonpos (sys : SystemState) (n : Int) (h : n ≤ 0)
    (cfg : CpuConfig) (uc : Bool) (ctr : Nat) :
    assembleCluster sys n cfg uc ctr = .error "assert num_cpus > 0" := by
  simp [assembleCluster,
    clusterInit_nonpos sys n h cfg.cpu_type cfg.l1i_type cfg.l1d_type cfg.l2_type]

theorem assembleCluster_ok (sys : SystemState) (n : Int) (hn : 0 < n)
    (cfg : CpuConfig) (uc : Bool) (ctr : Nat) :
    ∃ cl sys' ctr' conns,
      assembleCluster sys n cfg uc ctr = .ok (cl, sys', ctr', conns) ∧
      cl.cpus.length = n.toNat ∧
      (cfg.l2_type = none → cl.l2 = none ∧ cl.toL2Bus = none) ∧
      sys' = { clusters := sys.clusters + 1, num_cpus := sys.num_cpus + n.toNat } := by
  cases uc with
  | false =>
    refine ⟨initialCluster sys n.toNat cfg.cpu_type cfg.l1i_type cfg.l1d_type cfg.l2_type,
      _, ctr,
      connectMemSide
        (initialCluster sys n.toNat cfg.cpu_type cfg.l1i_type cfg.l1d_type cfg.l2_type),
      ?_,
      initialCluster_cpus_length sys n.toNat cfg.cpu_type cfg.l1i_type cfg.l1d_type
        cfg.l2_type,
      fun _ => ⟨rfl, rfl⟩, rfl⟩
    simp [assembleCluster,
      clusterInit_pos sys n hn cfg.cpu_type cfg.l1i_type cfg.l1d_type cfg.l2_type]
  | true =>
    have heq := assembleCluster_true_eq sys n hn cfg ctr
    refine ⟨_, _, _, _, heq, ?_, ?_, rfl⟩
    · rw [addL2_cpus, addL1_cpus_length, initialCluster_cpus_length]
    · intro h
      have hlt : (addL1 (initialCluster sys n.toNat cfg.cpu_type cfg.l1i_type
          cfg.l1d_type cfg.l2_type) ctr).1.l2_type = none := by
        rw [addL1_l2_type]; exact h
      rw [addL2_none_eq _ _ hlt]
      exact ⟨(addL1_l2 _ _).trans rfl, (addL1_toL2Bus _ _).trans rfl⟩

/-! ## Claim theorems -/

/-- C1.  Constructing a cluster of `N ≥ 1` cores on a system assigns the `N`
cores distinct, strictly increasing global core ids with no gaps or reuse:
core `idx` gets id `system.numCpus() + idx` (total core count before the
construction plus the index), and registering the cluster increments the
system's total core count by `N`, so a second 2-core cluster after a first
2-core cluster receives ids 2 and 3. -/
theorem cluster_core_ids (sys : SystemState) (n : Int) (hn : 1 ≤ n)
    (ct : String) (ti td tl2 : Option CacheTy) :
    ∃ cl sys', clusterInit sys n ct ti td tl2 = .ok (cl, sys') ∧
      cl.cpus.length = n.toNat ∧
      cl.cpus.map Cpu.cpu_id = (List.range n.toNat).map (fun i => sys.num_cpus + i) ∧
      (cl.cpus.map Cpu.cpu_id).Pairwise (· < ·) ∧
      (cl.cpus.map Cpu.cpu_id).Nodup ∧
      sys'.num_cpus = sys.num_cpus + n.toNat := by
  have hmap := initialCluster_cpus_map sys n.toNat ct ti td tl2
  refine ⟨_, _, clusterInit_pos sys n (by omega) ct ti td tl2,
    initialCluster_cpus_length sys n.toNat ct ti td tl2, hmap, ?_, ?_, rfl⟩
  · rw [hmap]
    exact (List.pairwise_lt_range _).map _ (fun a b hab => by omega)
  · rw [hmap]
    exact (List.nodup_range _).map (fun a b hab => by omega)

/-- C1 witness: on a system that already holds one 2-core cluster
(`num_cpus = 2`), a second 2-core cluster receives ids `[2, 3]`, not
`[0, 1]`, and the system's core count becomes 4. -/
theorem cluster_core_ids_witness :
    ∃ cl sys',
      clusterInit { clusters := 1, num_cpus := 2 } 2 "minor" none none none = .ok (cl, sys') ∧
      cl.cpus.length = (2 : Int).toNat ∧
      cl.cpus.map Cpu.cpu_id = (List.range (2 : Int).toNat).map (fun i => 2 + i) ∧
      (cl.cpus.map Cpu.cpu_id).Pairwise (· < ·) ∧
      (cl.cpus.map Cpu.cpu_id).Nodup ∧
      sys'.num_cpus = 2 + (2 : Int).toNat ∧
      cl.cpus.map Cpu.cpu_id = [2, 3] := by
  obtain ⟨cl, sys', h1, h2, h3, h4, h5, h6⟩ :=
    cluster_core_ids { clusters := 1, num_cpus := 2 } 2 (by decide) "minor" none none none
  exact ⟨cl, sys', h1, h2, h3, h4, h5, h6, by rw [h3]; rfl⟩

/-- C9.  Constructing a standard cluster with core count `≤ 0` fails at
assembly time (the `assert num_cpus > 0` fires before any cores are
created); with core count `> 0` construction succeeds and produces exactly
that many cores. -/
theorem clusterInit_core_count_check (sys : SystemState) (n : Int)
    (ct : String) (ti td tl2 : Option CacheTy) :
    (n ≤ 0 → clusterInit sys n ct ti td tl2 = .error "assert num_cpus > 0") ∧
    (0 < n → ∃ cl sys', clusterInit sys n ct ti td tl2 = .ok (cl, sys') ∧
       cl.cpus.length = n.toNat) := by
  constructor
  · intro h
    simp [clusterInit, if_pos h]
  · intro h
    exact ⟨_, _, clusterInit_pos sys n h ct ti td tl2,
      initialCluster_cpus_length sys n.toNat ct ti td tl2⟩

/-- C9 witness: core count 0 is rejected; core count 3 yields 3 cores. -/
theorem clusterInit_core_count_check_witness :
    clusterInit { } 0 "minor" none none none = .error "assert num_cpus > 0" ∧
    (∃ cl sys', clusterInit { } 3 "minor" none none none = .ok (cl, sys') ∧
       cl.cpus.length = (3 : Int).toNat) :=
  ⟨(clusterInit_core_count_check { } 0 "minor" none none none).1 (by decide),
   (clusterInit_core_count_check { } 3 "minor" none none none).2 (by decide)⟩

/-- C7.  `addL1()` attaches private per-core L1 instruction and data cache
instances: for every core of the resulting cluster, both an L1I and an L1D
instance are constructed and attached iff both an L1-instruction and an
L1-data cache type are configured (each level individually iff its own type
is configured), and every constructed cache instance is fresh per core —
its serial appears exactly once across the cluster, so no instance is ever
shared between cores. -/
theorem addL1_private_per_core (c : Cluster) (k : Nat) :
    (addL1 c k).1.cpus.length = c.cpus.length ∧
    (∀ cpu ∈ (addL1 c k).1.cpus,
      cpu.icache.isSome = c.l1i_type.isSome ∧ cpu.dcache.isSome = c.l1d_type.isSome) ∧
    (∀ cpu ∈ (addL1 c k).1.cpus,
      ((cpu.icache.isSome ∧ cpu.dcache.isSome) ↔
        (c.l1i_type.isSome ∧ c.l1d_type.isSome))) ∧
    (cacheSerials (addL1 c k).1.cpus).Nodup := by
  refine ⟨addL1_cpus_length c k,
    fun cpu h => addL1Caches_mem c.cpus c.l1i_type c.l1d_type k cpu h, ?_,
    addL1Caches_serials_nodup c.cpus c.l1i_type c.l1d_type k⟩
  intro cpu h
  have hm := addL1Caches_mem c.cpus c.l1i_type c.l1d_type k cpu h
  rw [hm.1, hm.2]

/-- C7 witness: on a 2-core cluster with both L1 types configured, `addL1`
attaches an L1I and an L1D to each core, and all four cache instances are
pairwise distinct. -/
theorem addL1_private_per_core_witness :
    (addL1 sampleClusterL2 0).1.cpus.length = sampleClusterL2.cpus.length ∧
    (∀ cpu ∈ (addL1 sampleClusterL2 0).1.cpus,
      cpu.icache.isSome = sampleClusterL2.l1i_type.isSome ∧
      cpu.dcache.isSome = sampleClusterL2.l1d_type.isSome) ∧
    (∀ cpu ∈ (addL1 sampleClusterL2 0).1.cpus,
      ((cpu.icache.isSome ∧ cpu.dcache.isSome) ↔
        (sampleClusterL2.l1i_type.isSome ∧ sampleClusterL2.l1d_type.isSome))) ∧
    (cacheSerials (addL1 sampleClusterL2 0).1.cpus).Nodup :=
  addL1_private_per_core sampleClusterL2 0

/-- C5.  `addL2(clock_domain)` with no L2 type configured is a no-op that
returns the cluster unchanged; with an L2 type configured it constructs
exactly one shared L2 instance and one crossbar whose cpu-side has every
core's cached port connected and whose mem-side is connected to that L2's
upstream (`cpu_side`) port, leaving everything else about the cluster
unchanged. -/
theorem addL2_shared_l2 (c : Cluster) (k : Nat) :
    (c.l2_type = none → addL2 c k = (c, k)) ∧
    (c.l2_type.isSome →
      ∃ xbar l2i,
        (addL2 c k).1 = { c with toL2Bus := some xbar, l2 := some l2i } ∧
        xbar.cpu_side_conns = c.cpus.map Cpu.cpu_id ∧
        xbar.mem_side_conn = some l2i.serial) := by
  constructor
  · intro h
    simp [addL2, h]
  · intro h
    match ht : c.l2_type with
    | none => rw [ht] at h; simp at h
    | some t =>
      refine ⟨{ serial := k, cpu_side_conns := c.cpus.map Cpu.cpu_id,
                mem_side_conn := some (k + 1) },
              { serial := k + 1 }, ?_, rfl, rfl⟩
      simp [addL2, ht]

/-- C5 witness: on a 2-core cluster, `addL2` with no L2 type is the
identity, and with an L2 type yields one crossbar with both cores' ports
and one shared L2 connected to it. -/
theorem addL2_shared_l2_witness :
    (addL2 sampleClusterNoL2 7 = (sampleClusterNoL2, 7)) ∧
    (∃ xbar l2i,
      (addL2 sampleClusterL2 7).1 =
        { sampleClusterL2 with toL2Bus := some xbar, l2 := some l2i } ∧
      xbar.cpu_side_conns = sampleClusterL2.cpus.map Cpu.cpu_id ∧
      xbar.mem_side_conn = some l2i.serial) :=
  ⟨(addL2_shared_l2 sampleClusterNoL2 7).1 rfl,
   (addL2_shared_l2 sampleClusterL2 7).2 rfl⟩

/-- C2.  `connectMemSide(bus)` makes exactly one upstream connection to the
bus when the cluster has an L2 (the L2's memory-side port) and exactly N
upstream connections (one per core, each core connected directly) when it
has none; and along the standard assembly pipeline an L2 type configured
yields the single L2 connection while no L2 type yields one direct
connection per core. -/
theorem connectMemSide_upstream_count (sys : SystemState) (n : Int) (cfg : CpuConfig)
    (ctr : Nat) (hn : 0 < n) :
    (∀ c : Cluster,
      (connectMemSide c).length = if c.l2.isSome then 1 else c.cpus.length) ∧
    ∃ cl sys' ctr' conns,
      assembleCluster sys n cfg true ctr = .ok (cl, sys', ctr', conns) ∧
      conns = connectMemSide cl ∧
      cl.cpus.length = n.toNat ∧
      (∀ t, cfg.l2_type = some t →
        ∃ l2i, cl.l2 = some l2i ∧ conns = [BusConn.l2MemSide l2i.serial]) ∧
      (cfg.l2_type = none → cl.l2 = none ∧
        conns = cl.cpus.map (fun cpu => BusConn.cpuCachedPort cpu.cpu_id) ∧
        conns.length = n.toNat) := by
  constructor
  · intro c
    cases hc : c.l2 <;> simp [connectMemSide, hc, connectCachedPorts]
  · have heq := assembleCluster_true_eq sys n hn cfg ctr
    generalize hp : addL1 (initialCluster sys n.toNat cfg.cpu_type cfg.l1i_type
        cfg.l1d_type cfg.l2_type) ctr = p at heq
    have hlt : p.1.l2_type = cfg.l2_type := by rw [← hp, addL1_l2_type]; rfl
    have hl2p : p.1.l2 = none := by rw [← hp, addL1_l2]; rfl
    have hlen : p.1.cpus.length = n.toNat := by
      rw [← hp, addL1_cpus_length, initialCluster_cpus_length]
    cases hl2 : cfg.l2_type with
    | none =>
      rw [hl2] at hlt
      rw [addL2_none_eq p.1 p.2 hlt] at heq
      refine ⟨p.1, _, p.2, connectMemSide p.1, heq, rfl, hlen, ?_, ?_⟩
      · intro t ht; simp at ht
      · intro _
        refine ⟨hl2p, ?_, ?_⟩
        · simp [connectMemSide, hl2p, connectCachedPorts]
        · simp [connectMemSide, hl2p, connectCachedPorts, hlen]
    | some t =>
      rw [hl2] at hlt
      rw [addL2_some_eq p.1 p.2 t hlt] at heq
      refine ⟨_, _, _, _, heq, rfl, ?_, ?_, ?_⟩
      · simpa using hlen
      · intro t' _
        exact ⟨{ serial := p.2 + 1 }, rfl, by simp [connectMemSide]⟩
      · intro hnone; simp at hnone

/-- C2 witness: a 2-core "timing" cluster (with L2) exposes exactly the
L2's memory-side connection; a 2-core "atomic" cluster (no caches) exposes
one direct connection per core. -/
theorem connectMemSide_upstream_count_witness :
    (((∀ c : Cluster,
        (connectMemSide c).length = if c.l2.isSome then 1 else c.cpus.length) ∧
      ∃ cl sys' ctr' conns,
        assembleCluster { } 2 cfgTiming true 0 = .ok (cl, sys', ctr', conns) ∧
        conns = connectMemSide cl ∧
        cl.cpus.length = (2 : Int).toNat ∧
        (∀ t, cfgTiming.l2_type = some t →
          ∃ l2i, cl.l2 = some l2i ∧ conns = [BusConn.l2MemSide l2i.serial]) ∧
        (cfgTiming.l2_type = none → cl.l2 = none ∧
          conns = cl.cpus.map (fun cpu => BusConn.cpuCachedPort cpu.cpu_id) ∧
          conns.length = (2 : Int).toNat))) ∧
    (((∀ c : Cluster,
        (connectMemSide c).length = if c.l2.isSome then 1 else c.cpus.length) ∧
      ∃ cl sys' ctr' conns,
        assembleCluster { } 2 cfgAtomic true 0 = .ok (cl, sys', ctr', conns) ∧
        conns = connectMemSide cl ∧
        cl.cpus.length = (2 : Int).toNat ∧
        (∀ t, cfgAtomic.l2_type = some t →
          ∃ l2i, cl.l2 = some l2i ∧ conns = [BusConn.l2MemSide l2i.serial]) ∧
        (cfgAtomic.l2_type = none → cl.l2 = none ∧
          conns = cl.cpus.map (fun cpu => BusConn.cpuCachedPort cpu.cpu_id) ∧
          conns.length = (2 : Int).toNat))) :=
  ⟨connectMemSide_upstream_count { } 2 cfgTiming 0 (by decide),
   connectMemSide_upstream_count { } 2 cfgAtomic 0 (by decide)⟩

/-- C3.  The number of workloads supplied must equal the core count: a
mismatch is rejected as a fatal error before instantiation (never truncated
or padded), and when the counts are equal the binding is one-to-one and
order-preserving — core `i` receives workload `i`. -/
theorem workload_binding_exact (n : Int) (cfg : CpuConfig) (uc : Bool)
    (ps : List Nat) (ctr : Nat) (hn : 0 < n) :
    ((ps.length : Int) ≠ n →
      createSystem n cfg uc ps ctr = .error "Error: Cannot map commands onto CPUs") ∧
    ((ps.length : Int) = n →
      ∃ cl sys' binds, createSystem n cfg uc ps ctr = .ok (cl, sys', binds) ∧
        binds = cl.cpus.zip ps ∧
        binds.length = cl.cpus.length ∧ cl.cpus.length = ps.length ∧
        ∀ i (h1 : i < binds.length) (h2 : i < cl.cpus.length) (h3 : i < ps.length),
          binds.get ⟨i, h1⟩ = (cl.cpus.get ⟨i, h2⟩, ps.get ⟨i, h3⟩)) := by
  obtain ⟨cl, sys', ctr', conns, hok, hlen, -, -⟩ :=
    assembleCluster_ok { } n hn cfg uc ctr
  constructor
  · intro hne
    simp [createSystem, hok, hne]
  · intro he
    have hps : ps.length = n.toNat := by omega
    have hcl : cl.cpus.length = ps.length := by omega
    refine ⟨cl, sys', cl.cpus.zip ps, ?_, rfl, ?_, hcl, ?_⟩
    · simp [createSystem, hok, he]
    · rw [List.length_zip, hcl, min_self]
    · intro i h1 h2 h3
      simp [List.get_eq_getElem, List.getElem_zip]

/-- C3 witness: 1 workload on 2 cores is rejected; 2 workloads on 2 cores
bind in order. -/
theorem workload_binding_exact_witness :
    (createSystem 2 cfgTiming true [7] 0 =
      .error "Error: Cannot map commands onto CPUs") ∧
    (∃ cl sys' binds, createSystem 2 cfgTiming true [7, 9] 0 = .ok (cl, sys', binds) ∧
      binds = cl.cpus.zip [7, 9] ∧
      binds.length = cl.cpus.length ∧ cl.cpus.length = ([7, 9] : List Nat).length ∧
      ∀ i (h1 : i < binds.length) (h2 : i < cl.cpus.length)
          (h3 : i < ([7, 9] : List Nat).length),
        binds.get ⟨i, h1⟩ = (cl.cpus.get ⟨i, h2⟩, ([7, 9] : List Nat).get ⟨i, h3⟩)) :=
  ⟨(workload_binding_exact 2 cfgTiming true [7] 0 (by decide)).1 (by decide),
   (workload_binding_exact 2 cfgTiming true [7, 9] 0 (by decide)).2 (by decide)⟩

/-- C4.  An L2-size override of "0" replaces the configured L2 type with
`None`, so assembly with the override produces a topology identical to the
one produced with no L2 type configured at all, and the assembled cluster
has no L2 cache and no L2 crossbar. -/
theorem l2_size_zero_override (sys : SystemState) (n : Int) (cfg : CpuConfig)
    (uc : Bool) (ctr : Nat) :
    applyL2SizeOverride cfg "0" =
      { cpu_type := cfg.cpu_type, l1i_type := cfg.l1i_type,
        l1d_type := cfg.l1d_type, l2_type := none } ∧
    assembleCluster sys n (applyL2SizeOverride cfg "0") uc ctr =
      assembleCluster sys n
        { cpu_type := cfg.cpu_type, l1i_type := cfg.l1i_type,
          l1d_type := cfg.l1d_type, l2_type := none } uc ctr ∧
    ∀ cl sys' ctr' conns,
      assembleCluster sys n (applyL2SizeOverride cfg "0") uc ctr =
        .ok (cl, sys', ctr', conns) →
      cl.l2 = none ∧ cl.toL2Bus = none := by
  have h0 : applyL2SizeOverride cfg "0" =
      { cpu_type := cfg.cpu_type, l1i_type := cfg.l1i_type,
        l1d_type := cfg.l1d_type, l2_type := none } := by
    simp [applyL2SizeOverride]
  refine ⟨h0, by rw [h0], ?_⟩
  intro cl sys' ctr' conns hok
  rw [h0] at hok
  by_cases hn : 0 < n
  · obtain ⟨cl0, sys0, ctr0, conns0, hok0, -, hl2, -⟩ :=
      assembleCluster_ok sys n hn
        { cpu_type := cfg.cpu_type, l1i_type := cfg.l1i_type,
          l1d_type := cfg.l1d_type, l2_type := none } uc ctr
    rw [hok0] at hok
    simp only [Except.ok.injEq, Prod.mk.injEq] at hok
    rw [← hok.1]
    exact hl2 rfl
  · rw [assembleCluster_nonpos sys n (by omega)
      { cpu_type := cfg.cpu_type, l1i_type := cfg.l1i_type,
        l1d_type := cfg.l1d_type, l2_type := none } uc ctr] at hok
    simp at hok

/-- C4 witness: overriding the "timing" configuration's L2 size with "0"
removes its L2 type, the topology equals the never-configured-L2 one, and
the assembled 2-core cluster holds no L2 and no L2 crossbar. -/
theorem l2_size_zero_override_witness :
    applyL2SizeOverride cfgTiming "0" =
      { cpu_type := cfgTiming.cpu_type, l1i_type := cfgTiming.l1i_type,
        l1d_type := cfgTiming.l1d_type, l2_type := none } ∧
    assembleCluster { } 2 (applyL2SizeOverride cfgTiming "0") true 0 =
      assembleCluster { } 2
        { cpu_type := cfgTiming.cpu_type, l1i_type := cfgTiming.l1i_type,
          l1d_type := cfgTiming.l1d_type, l2_type := none } true 0 ∧
    (∃ cl sys' ctr' conns,
      assembleCluster { } 2 (applyL2SizeOverride cfgTiming "0") true 0 =
        .ok (cl, sys', ctr', conns) ∧
      cl.l2 = none ∧ cl.toL2Bus = none) := by
  have h := l2_size_zero_override { } 2 cfgTiming true 0
  refine ⟨h.1, h.2.1, ?_⟩
  obtain ⟨cl, sys', ctr', conns, hok, -, -, -⟩ :=
    assembleCluster_ok { } 2 (by decide)
      { cpu_type := cfgTiming.cpu_type, l1i_type := cfgTiming.l1i_type,
        l1d_type := cfgTiming.l1d_type, l2_type := none } true 0
  have hok' : assembleCluster { } 2 (applyL2SizeOverride cfgTiming "0") true 0 =
      .ok (cl, sys', ctr', conns) := by rw [h.2.1]; exact hok
  exact ⟨cl, sys', ctr', conns, hok', h.2.2 cl sys' ctr' conns hok'⟩

/-- C6.  The bridge assembler computes core `i`'s redistributor base
address as `redistributor_base + frame_size * i` for `i` in `0..N-1`, where
`frame_size` is 0x40000 when the controller's v4.1 flag is set and 0x20000
otherwise, and the resulting `N` addresses are pairwise distinct (for both
frame-size variants). -/
theorem redist_addrs_distinct (redist_base : Nat) (flag : Bool) (N : Nat) :
    (redistTable redist_base (redist_frame_size flag) N).length = N ∧
    (∀ i, i < N →
      (i, redist_base + redist_frame_size flag * i) ∈
        redistTable redist_base (redist_frame_size flag) N) ∧
    redist_frame_size true = 0x40000 ∧ redist_frame_size false = 0x20000 ∧
    ((redistTable redist_base (redist_frame_size flag) N).map Prod.snd).Nodup := by
  refine ⟨by simp [redistTable], ?_, rfl, rfl, ?_⟩
  · intro i hi
    exact List.mem_map_of_mem _ (List.mem_range.mpr hi)
  · have hfs : 0 < redist_frame_size flag := by cases flag <;> decide
    rw [redistTable, List.map_map]
    refine (List.nodup_range N).map fun a b hab => ?_
    simp only [Function.comp_apply] at hab
    have h2 : redist_frame_size flag * a = redist_frame_size flag * b :=
      Nat.add_left_cancel hab
    exact Nat.eq_of_mul_eq_mul_left hfs h2

/-- C6 witness: with base 0x2c010000 and 4 cores, both frame-size variants
give 4 pairwise distinct addresses of the stated form. -/
theorem redist_addrs_distinct_witness :
    ((redistTable 0x2c010000 (redist_frame_size true) 4).length = 4 ∧
      (∀ i, i < 4 →
        (i, 0x2c010000 + redist_frame_size true * i) ∈
          redistTable 0x2c010000 (redist_frame_size true) 4) ∧
      redist_frame_size true = 0x40000 ∧ redist_frame_size false = 0x20000 ∧
      ((redistTable 0x2c010000 (redist_frame_size true) 4).map Prod.snd).Nodup) ∧
    ((redistTable 0x2c010000 (redist_frame_size false) 4).length = 4 ∧
      (∀ i, i < 4 →
        (i, 0x2c010000 + redist_frame_size false * i) ∈
          redistTable 0x2c010000 (redist_frame_size false) 4) ∧
      redist_frame_size true = 0x40000 ∧ redist_frame_size false = 0x20000 ∧
      ((redistTable 0x2c010000 (redist_frame_size false) 4).map Prod.snd).Nodup) :=
  ⟨redist_addrs_distinct 0x2c010000 true 4, redist_addrs_distinct 0x2c010000 false 4⟩

/-- C8.  Assembling the externally-modeled cluster variant with a core
count exceeding its fixed maximum of 4 fails fatally at construction time
(`assert num_cpus <= 4`): no result is ever produced, so no bridge or core
objects reach the kernel. -/
theorem fastmodel_rejects_excess_cores (sys : SystemState) (n : Int)
    (redist_base : Nat) (flag : Bool) (h : 4 < n) :
    fastmodelInit sys n redist_base flag = .error "assert num_cpus <= 4" := by
  simp [fastmodelInit, fastmodelSelectCpu, if_pos h]

/-- C8 witness: 5 cores are rejected. -/
theorem fastmodel_rejects_excess_cores_witness :
    fastmodelInit { } 5 0x2c010000 true = .error "assert num_cpus <= 4" :=
  fastmodel_rejects_excess_cores { } 5 0x2c010000 true (by decide)

/-- C10 counterexample: constructing the externally-modeled cluster with
`num_cpus = 0` is NOT accepted by the whole constructor — it fails at the
final registration step (`system.addCpuCluster(self, 0)`, whose
`assert num_cpus > 0` fires), so the construction does not complete. -/
theorem fastmodel_zero_cores_counterexample :
    fastmodelInit { } 0 0x2c010000 true = .error "assert num_cpus > 0" := rfl

/-- C10 (amended).  With `num_cpus = 0`, the core-count check
(`assert num_cpus <= 4`) does not reject, and the class-table lookup at
index `0 - 1 = -1` selects the last, four-core external model class instead
of failing, so a four-core external model is selected and built; the
construction is aborted only afterwards, at cluster registration, where the
owning system's `addCpuCluster` asserts `num_cpus > 0`. -/
theorem fastmodel_zero_cores_selects_x4 (sys : SystemState) (redist_base : Nat)
    (flag : Bool) :
    ¬ (4 < (0 : Int)) ∧
    pyGet CpuClasses ((0 : Int) - 1) = some FastModelCpuClass.cortexA76x4 ∧
    fastmodelSelectCpu 0 = .ok FastModelCpuClass.cortexA76x4 ∧
    FastModelCpuClass.numCores FastModelCpuClass.cortexA76x4 = 4 ∧
    fastmodelInit sys 0 redist_base flag = .error "assert num_cpus > 0" :=
  ⟨by decide, rfl, rfl, rfl, rfl⟩

/-- C10 (amended) witness at a concrete system, base address and flag. -/
theorem fastmodel_zero_cores_selects_x4_witness :
    ¬ (4 < (0 : Int)) ∧
    pyGet CpuClasses ((0 : Int) - 1) = some FastModelCpuClass.cortexA76x4 ∧
    fastmodelSelectCpu 0 = .ok FastModelCpuClass.cortexA76x4 ∧
    FastModelCpuClass.numCores FastModelCpuClass.cortexA76x4 = 4 ∧
    fastmodelInit { } 0 0x2c010000 false = .error "assert num_cpus > 0" :=
  fastmodel_zero_cores_selects_x4 { } 0x2c010000 false

end RiscvGem5
